import Mathlib

/-!
Shallow embedding of `src/docker/imagenie/main.py`.

The script discovers container repositories from a paginated registry
listing (`get_container_names`), downloads the Trivy vulnerability database
with a bounded retry loop, and then, for each discovered container name:
pulls the image with skopeo into a staging tarball `/tmp/<name>.tar`, scans
the tarball with trivy, and — when the scan stdout contains the substring
`"CRITICAL"` — deletes the tarball and moves on; otherwise it converts the
tarball with singularity into `/tmp/<name>.sif`, uploads that file to the
bucket blob `containers/<name>.sif`, and deletes both local files.

External effects are modelled by environments: each external command's
outcome (exit code, stdout, stderr) is an input of the model, and the
Python calls that can raise an exception — the bucket upload
(`upload_from_filename`) and `rm` run with `check=True` — carry a Bool
saying whether they raise.  A run produces the list of external calls that
were made (the event trace) together with the exception, if any, that
escaped; an escaped exception ends the whole process with exit status 1,
as an uncaught Python exception does.
-/

namespace Imagenie

/-- Exit code, stdout and stderr of one `subprocess.run` invocation. -/
structure ProcResult where
  returncode : Int
  stdout : String
  stderr : String
  deriving DecidableEq

/-- One entry of a registry listing page; the code reads `repo["name"]`. -/
structure Repo where
  name : String
  deriving DecidableEq

/-- One response of the paginated listing: its HTTP status code and the
`results` list extracted from the JSON body. -/
structure PageResp where
  status_code : Nat
  results : List Repo
  deriving DecidableEq

/-- `startsWithChars needle hay` is true when `needle` is a prefix of `hay`. -/
def startsWithChars : List Char → List Char → Bool
  | [], _ => true
  | _ :: _, [] => false
  | c :: cs, d :: ds => (c == d) && startsWithChars cs ds

/-- `containsSub hay needle` is Python's substring test `needle in hay`,
on exploded character lists. -/
def containsSub : List Char → List Char → Bool
  | _, [] => true
  | [], _ :: _ => false
  | c :: rest, n :: ns => startsWithChars (n :: ns) (c :: rest) || containsSub rest (n :: ns)

/-- The critical-severity marker the code greps the scan stdout for
(line 70: `if "CRITICAL" in scan_result.stdout`). -/
def criticalMarker : String := "CRITICAL"

/-- `hasCritical s` is `"CRITICAL" in s` of line 70. -/
def hasCritical (s : String) : Bool := containsSub s.toList criticalMarker.toList

/-- Embedding of `get_container_names` (lines 8-24).  The successive page
responses of the listing endpoint are given as a list: entry `i` is the
response to the request for page `i+1`, and past the end of the list the
endpoint keeps answering status 200 with an empty `results` list, which is
the case in which the source's `while True` loop terminates at all.  The
loop breaks on a non-200 status or an empty page, returning the names
accumulated so far, and never raises. -/
def get_container_names : List PageResp → List String
  | [] => []
  | r :: rest =>
    if r.status_code ≠ 200 then []
    else if r.results.isEmpty then []
    else r.results.map Repo.name ++ get_container_names rest

/-- The concatenation, in page order, of the names of a list of pages. -/
def allNames : List PageResp → List String
  | [] => []
  | p :: ps => p.results.map Repo.name ++ allNames ps

/-- One observable step of the database-preparation retry loop: running
`trivy --download-db-only` (attempt `i`, counting from 0) or sleeping. -/
inductive PrepEvent where
  | attempt (i : Nat)
  | sleep (seconds : Nat)
  deriving DecidableEq

/-- Embedding of the retry loop of lines 35-46: `for attempt in range(5)`,
break on returncode 0, `time.sleep(5)` after every failure except the last
attempt's.  `ok i` tells whether attempt `i` exits with returncode 0.
`fuel` is the number of attempts still allowed, `i` the current attempt
index; the loop is entered with fuel 5 at attempt 0 (`dbPrep`).  Returns
the event trace and whether the download eventually succeeded (i.e.
whether the `for` loop was left by `break`, skipping its `else` clause). -/
def dbPrepGo (ok : Nat → Bool) : Nat → Nat → List PrepEvent × Bool
  | 0, _ => ([], false)
  | fuel + 1, i =>
    if ok i then ([PrepEvent.attempt i], true)
    else if fuel = 0 then ([PrepEvent.attempt i], false)
    else
      let r := dbPrepGo ok fuel (i + 1)
      (PrepEvent.attempt i :: PrepEvent.sleep 5 :: r.1, r.2)

/-- The database preparation of lines 34-49: at most 5 attempts starting
from attempt 0. -/
def dbPrep (ok : Nat → Bool) : List PrepEvent × Bool := dbPrepGo ok 5 0

/-- The trace `[attempt i, sleep 5, attempt i+1, …, attempt (i+m)]`:
`m+1` consecutive attempts starting at `i` with a 5 second sleep between
each pair of consecutive attempts and no trailing sleep. -/
def attemptsFrom : Nat → Nat → List PrepEvent
  | i, 0 => [PrepEvent.attempt i]
  | i, m + 1 => PrepEvent.attempt i :: PrepEvent.sleep 5 :: attemptsFrom (i + 1) m

/-- What the environment does for one container's task (lines 51-94):
the three subprocess results and whether the two calls that can raise do
raise.  `uploadRaises` models `upload_from_filename` raising (file absent
after a failed conversion, network or auth error); `rmRaises` models
`subprocess.run(["rm", …], check=True)` raising `CalledProcessError`. -/
structure TaskEnv where
  pull : ProcResult
  scan : ProcResult
  convert : ProcResult
  uploadRaises : Bool
  rmRaises : Bool
  deriving DecidableEq

/-- An external call made by the per-container body of the loop. -/
inductive Event where
  | pull (image staging : String)
  | scan (staging : String)
  | convert (sif staging : String)
  | upload (key file : String)
  | rm (files : List String)
  deriving DecidableEq

/-- A Python exception escaping the script. -/
inductive Exn where
  | uploadError
  | calledProcessError
  | nameError
  | systemExit (code : Nat)
  deriving DecidableEq

/-- How one container's task ended. -/
inductive TaskResult where
  | skipped
  | uploaded
  | raised (e : Exn)
  deriving DecidableEq

/-- Line 53: `staging_path = f"/tmp/{container_name}.tar"`. -/
def staging_path (name : String) : String := "/tmp/" ++ name ++ ".tar"

/-- Line 81: `sif_file = f"/tmp/{container_name}.sif"`. -/
def sif_file (name : String) : String := "/tmp/" ++ name ++ ".sif"

/-- Line 52: `image = f"docker://{org}/{container_name}:latest"`. -/
def image_ref (org name : String) : String :=
  "docker://" ++ org ++ "/" ++ name ++ ":latest"

/-- Line 85: the blob name `f"containers/{container_name}.sif"`. -/
def destination_key (name : String) : String := "containers/" ++ name ++ ".sif"

/-- The body of the `for container_name in container_names` loop
(lines 51-94) for one container.  Pull and convert results are never
inspected by the code (their `subprocess.run` calls have no `check=True`
and their returncodes are discarded); the only data-dependent branch is
`"CRITICAL" in scan_result.stdout`.  On the critical branch the staging
tarball is removed and the task is skipped; otherwise conversion, upload
and removal of both files follow in order.  An upload or checked-`rm`
exception escapes the loop body uncaught. -/
def runTask (org name : String) (env : TaskEnv) : List Event × TaskResult :=
  let staging := staging_path name
  let sif := sif_file name
  let base := [Event.pull (image_ref org name) staging, Event.scan staging]
  if hasCritical env.scan.stdout then
    if env.rmRaises then
      (base ++ [Event.rm [staging]], TaskResult.raised Exn.calledProcessError)
    else
      (base ++ [Event.rm [staging]], TaskResult.skipped)
  else
    let evs := base ++ [Event.convert sif staging, Event.upload (destination_key name) sif]
    if env.uploadRaises then
      (evs, TaskResult.raised Exn.uploadError)
    else if env.rmRaises then
      (evs ++ [Event.rm [sif, staging]], TaskResult.raised Exn.calledProcessError)
    else
      (evs ++ [Event.rm [sif, staging]], TaskResult.uploaded)

/-- The container loop of line 51: tasks run in discovery order; an
exception escaping one task's body aborts the whole loop (there is no
try/except around the body), while `skipped` and `uploaded` tasks are
followed by the next container. -/
def runLoop (org : String) (envs : String → TaskEnv) : List String → List Event × Option Exn
  | [] => ([], none)
  | n :: rest =>
    let t := runTask org n (envs n)
    match t.2 with
    | TaskResult.raised e => (t.1, some e)
    | TaskResult.skipped =>
      let r := runLoop org envs rest
      (t.1 ++ r.1, r.2)
    | TaskResult.uploaded =>
      let r := runLoop org envs rest
      (t.1 ++ r.1, r.2)

/-- The names bound at module level of `main.py`: the four plain module
imports of lines 1-4, the name `storage` bound by line 6, and the two
function definitions.  Notably `sys` is not among them. -/
def moduleBindings : List String :=
  ["subprocess", "requests", "logging", "time", "storage",
   "get_container_names", "process_containers"]

/-- What evaluating the abort statement `sys.exit(1)` of line 49 does:
Python first resolves the name `sys`; if it is bound, `sys.exit(1)` raises
`SystemExit(1)`, otherwise the lookup itself raises `NameError`. -/
def abortStatement : Exn :=
  if "sys" ∈ moduleBindings then Exn.systemExit 1 else Exn.nameError

/-- The environment of one whole run: the listing pages, the success of
each database-download attempt, and each container's task environment. -/
structure RunEnv where
  pages : List PageResp
  prepOk : Nat → Bool
  task : String → TaskEnv

/-- Everything observable about one run of `process_containers`. -/
structure RunOutcome where
  names : List String
  prepEvents : List PrepEvent
  prepSucceeded : Bool
  taskEvents : List Event
  exn : Option Exn
  deriving DecidableEq

/-- Embedding of `process_containers` (lines 26-95): discovery, then the
database-preparation retry loop; if that loop falls through to its `else`
clause the abort statement runs before any container is processed, and
otherwise the container loop runs.  The function returns normally (line
95) exactly when no exception escaped. -/
def process_containers (env : RunEnv) : RunOutcome :=
  let names := get_container_names env.pages
  let prep := dbPrep env.prepOk
  let loop :=
    if prep.2 then runLoop "ghtrecontainers" env.task names
    else ([], some abortStatement)
  { names := names, prepEvents := prep.1, prepSucceeded := prep.2,
    taskEvents := loop.1, exn := loop.2 }

/-- The process exit status: 0 on a normal return from `process_containers`
(the `if __name__` guard then falls off the end of the script), the carried
code for `SystemExit`, and 1 for any other uncaught exception. -/
def exitStatus (o : RunOutcome) : Nat :=
  match o.exn with
  | none => 0
  | some (Exn.systemExit c) => c
  | some _ => 1

/-- Recognizes conversion events in a trace. -/
def isConvertEvent : Event → Bool
  | Event.convert _ _ => true
  | _ => false

/-- Recognizes upload events in a trace. -/
def isUploadEvent : Event → Bool
  | Event.upload _ _ => true
  | _ => false

/-- Recognizes rm (cleanup) events in a trace. -/
def isRmEvent : Event → Bool
  | Event.rm _ => true
  | _ => false

/-! ### Basic facts about the embedded functions -/

theorem process_containers_prepEvents (env : RunEnv) :
    (process_containers env).prepEvents = (dbPrep env.prepOk).1 := rfl

theorem process_containers_prepSucceeded (env : RunEnv) :
    (process_containers env).prepSucceeded = (dbPrep env.prepOk).2 := rfl

theorem process_containers_names (env : RunEnv) :
    (process_containers env).names = get_container_names env.pages := rfl

theorem process_containers_loop (env : RunEnv) (h : (dbPrep env.prepOk).2 = true) :
    (process_containers env).taskEvents =
      (runLoop "ghtrecontainers" env.task (get_container_names env.pages)).1 ∧
    (process_containers env).exn =
      (runLoop "ghtrecontainers" env.task (get_container_names env.pages)).2 := by
  have h5 : (dbPrepGo env.prepOk 5 0).2 = true := h
  constructor <;> simp [process_containers, dbPrep, h5]

theorem process_containers_abort (env : RunEnv) (h : (dbPrep env.prepOk).2 = false) :
    (process_containers env).taskEvents = [] ∧
    (process_containers env).exn = some abortStatement := by
  have h5 : (dbPrepGo env.prepOk 5 0).2 = false := h
  constructor <;> simp [process_containers, dbPrep, h5]

theorem abortStatement_eq : abortStatement = Exn.nameError := by decide

/-- Shape of the retry trace: some `m + 1 ≤ fuel` attempts, consecutive,
with exactly one 5 second sleep between each pair of consecutive attempts. -/
theorem dbPrepGo_shape (ok : Nat → Bool) :
    ∀ fuel, 1 ≤ fuel → ∀ i, ∃ m, m + 1 ≤ fuel ∧
      (dbPrepGo ok fuel i).1 = attemptsFrom i m := by
  intro fuel
  induction fuel with
  | zero => intro h; exact absurd h (by omega)
  | succ f ih =>
    intro _ i
    by_cases hok : ok i = true
    · exact ⟨0, by omega, by simp [dbPrepGo, hok, attemptsFrom]⟩
    · by_cases hf : f = 0
      · exact ⟨0, by omega, by simp [dbPrepGo, hok, hf, attemptsFrom]⟩
      · obtain ⟨m, hm, htr⟩ := ih (by omega) (i + 1)
        exact ⟨m + 1, by omega, by simp [dbPrepGo, hok, hf, attemptsFrom, htr]⟩

/-- Any attempt appearing in the retry trace was preceded (from the start
index on) only by failing attempts: the loop never runs an attempt after a
success. -/
theorem dbPrepGo_attempt_mem (ok : Nat → Bool) :
    ∀ fuel i j, PrepEvent.attempt j ∈ (dbPrepGo ok fuel i).1 →
      i ≤ j ∧ ∀ x, i ≤ x → x < j → ok x = false := by
  intro fuel
  induction fuel with
  | zero => intro i j h; simp [dbPrepGo] at h
  | succ f ih =>
    intro i j h
    by_cases hok : ok i = true
    · simp [dbPrepGo, hok] at h
      subst h
      exact ⟨le_refl _, fun x h1 h2 => absurd h2 (by omega)⟩
    · simp only [Bool.not_eq_true] at hok
      by_cases hf : f = 0
      · simp [dbPrepGo, hok, hf] at h
        subst h
        exact ⟨le_refl _, fun x h1 h2 => absurd h2 (by omega)⟩
      · simp [dbPrepGo, hok, hf] at h
        rcases h with h | h
        · subst h
          exact ⟨le_refl _, fun x h1 h2 => absurd h2 (by omega)⟩
        · obtain ⟨h1, h2⟩ := ih (i + 1) j h
          refine ⟨by omega, fun x hx1 hx2 => ?_⟩
          by_cases hxi : x = i
          · subst hxi; exact hok
          · exact h2 x (by omega) hx2

/-- The retry loop succeeds exactly when some attempt within the budget
succeeds. -/
theorem dbPrepGo_succeeds (ok : Nat → Bool) :
    ∀ fuel i, (dbPrepGo ok fuel i).2 = true ↔
      ∃ j, i ≤ j ∧ j < i + fuel ∧ ok j = true := by
  intro fuel
  induction fuel with
  | zero =>
    intro i
    simp only [dbPrepGo]
    constructor
    · intro h; cases h
    · rintro ⟨j, h1, h2, -⟩; exact absurd h2 (by omega)
  | succ f ih =>
    intro i
    by_cases hok : ok i = true
    · simp only [dbPrepGo, hok, if_true]
      constructor
      · intro _; exact ⟨i, le_refl _, by omega, hok⟩
      · intro _; trivial
    · by_cases hf : f = 0
      · subst hf
        simp only [dbPrepGo, hok, if_false, if_true, reduceIte]
        constructor
        · intro h; cases h
        · rintro ⟨j, h1, h2, h3⟩
          have : j = i := by omega
          subst this
          exact absurd h3 hok
      · have hred : (dbPrepGo ok (f + 1) i).2 = (dbPrepGo ok f (i + 1)).2 := by
          simp [dbPrepGo, hok, hf]
        rw [hred, ih (i + 1)]
        constructor
        · rintro ⟨j, h1, h2, h3⟩; exact ⟨j, by omega, by omega, h3⟩
        · rintro ⟨j, h1, h2, h3⟩
          have hij : j ≠ i := by intro h; subst h; exact hok h3
          exact ⟨j, by omega, by omega, h3⟩

/-- All five attempts failing means the loop falls through to its `else`. -/
theorem dbPrep_fails (ok : Nat → Bool) (hall : ∀ i, i < 5 → ok i = false) :
    (dbPrep ok).2 = false := by
  cases h : (dbPrep ok).2
  · rfl
  · obtain ⟨j, h1, h2, h3⟩ := (dbPrepGo_succeeds ok 5 0).mp h
    have hj := hall j (by omega)
    rw [h3] at hj; cases hj

/-- When all five attempts fail, the abort statement's `NameError` escapes:
no container events, exit status 1. -/
theorem process_containers_fatal (env : RunEnv)
    (hall : ∀ i, i < 5 → env.prepOk i = false) :
    (process_containers env).exn = some Exn.nameError ∧
    exitStatus (process_containers env) = 1 ∧
    (process_containers env).taskEvents = [] := by
  have hs := dbPrep_fails env.prepOk hall
  obtain ⟨ht, he⟩ := process_containers_abort env hs
  rw [abortStatement_eq] at he
  exact ⟨he, by simp [exitStatus, he], ht⟩

/-- The scan is invoked for every container the loop body runs on,
whatever the environment does. -/
theorem runTask_scan_mem (org name : String) (env : TaskEnv) :
    Event.scan (staging_path name) ∈ (runTask org name env).1 := by
  cases h : hasCritical env.scan.stdout <;>
    cases hu : env.uploadRaises <;>
      cases hr : env.rmRaises <;>
        simp [runTask, h, hu, hr]

/-- When neither the upload nor a checked `rm` raises, a task always ends
`skipped` or `uploaded` — the exit codes of pull, scan and convert are
never consulted. -/
theorem runTask_benign_result (org name : String) (env : TaskEnv)
    (hu : env.uploadRaises = false) (hr : env.rmRaises = false) :
    (runTask org name env).2 = TaskResult.skipped ∨
      (runTask org name env).2 = TaskResult.uploaded := by
  cases h : hasCritical env.scan.stdout <;> simp [runTask, h, hu, hr]

/-- Unfolding of the loop on a task that does not raise. -/
theorem runLoop_cons_benign (org : String) (envs : String → TaskEnv)
    (m : String) (rest : List String)
    (h : (runTask org m (envs m)).2 = TaskResult.skipped ∨
      (runTask org m (envs m)).2 = TaskResult.uploaded) :
    runLoop org envs (m :: rest) =
      ((runTask org m (envs m)).1 ++ (runLoop org envs rest).1,
        (runLoop org envs rest).2) := by
  rcases h with h | h <;> simp [runLoop, h]

/-- When no upload and no checked `rm` raises, the loop attempts every
container (each one is scanned) and no exception escapes. -/
theorem runLoop_benign (org : String) (envs : String → TaskEnv)
    (hu : ∀ n, (envs n).uploadRaises = false)
    (hr : ∀ n, (envs n).rmRaises = false) :
    ∀ names : List String, (runLoop org envs names).2 = none ∧
      ∀ n ∈ names, Event.scan (staging_path n) ∈ (runLoop org envs names).1 := by
  intro names
  induction names with
  | nil => simp [runLoop]
  | cons m rest ih =>
    have hunf := runLoop_cons_benign org envs m rest
      (runTask_benign_result org m (envs m) (hu m) (hr m))
    constructor
    · rw [hunf]; exact ih.1
    · intro n hn
      rw [hunf]
      rcases List.mem_cons.mp hn with hn | hn
      · subst hn; exact List.mem_append_left _ (runTask_scan_mem org n (envs n))
      · exact List.mem_append_right _ (ih.2 n hn)

/-! ### Concrete environments used as witnesses and counterexamples -/

/-- A successful external command with empty output. -/
def benignProc : ProcResult := ⟨0, "", ""⟩

/-- Every step succeeds, nothing raises, scan output clean. -/
def benignEnv : TaskEnv := ⟨benignProc, benignProc, benignProc, false, false⟩

/-- Pull and scan exit nonzero (recoverable, per the spec), nothing raises. -/
def pullFailEnv : TaskEnv :=
  ⟨⟨1, "", "pull failed"⟩, ⟨1, "", "scan failed"⟩, ⟨1, "", ""⟩, false, false⟩

/-- The bucket upload raises (missing artifact, network or auth error). -/
def uploadFailEnv : TaskEnv := ⟨benignProc, benignProc, benignProc, true, false⟩

/-- The scanner could not complete: nonzero exit, nothing on stdout. -/
def scanErrEnv : TaskEnv :=
  ⟨benignProc, ⟨1, "", "scanner crashed"⟩, benignProc, false, false⟩

/-- A scan whose stdout reports a critical finding. -/
def criticalEnv : TaskEnv :=
  ⟨benignProc, ⟨0, "Total: 1 (CRITICAL: 1)", ""⟩, benignProc, false, false⟩

/-- A one-page listing with the single repository `alpha`. -/
def alphaPages : List PageResp := [⟨200, [⟨"alpha"⟩]⟩]

/-- Two pages both listing the repository name `alpha`. -/
def dupPages : List PageResp := [⟨200, [⟨"alpha"⟩]⟩, ⟨200, [⟨"alpha"⟩]⟩]

/-- A run whose database download only succeeds on the fifth attempt. -/
def lateOkRun : RunEnv := ⟨[], fun i => decide (i = 4), fun _ => benignEnv⟩

/-- A run whose database download fails on every attempt. -/
def allFailRun : RunEnv := ⟨[], fun _ => false, fun _ => benignEnv⟩

/-- A run with a clean database download but a raising upload. -/
def uploadFailRun : RunEnv := ⟨alphaPages, fun _ => true, fun _ => uploadFailEnv⟩

/-! ### The claims -/

/-- Claim C6: for a listing of non-empty success pages P1..Pn followed by
an empty page, discovery returns exactly the concatenation of the names of
P1..Pn in page order; and if page k answers with a non-success status,
discovery returns exactly the names accumulated from pages 1..k-1 (and,
being a total function, surfaces no error to the caller). -/
theorem C6_discovery :
    (∀ ps : List PageResp, (∀ p ∈ ps, p.status_code = 200 ∧ p.results ≠ []) →
      ∀ rest : List PageResp,
        get_container_names (ps ++ ⟨200, []⟩ :: rest) = allNames ps) ∧
    (∀ pre : List PageResp, (∀ p ∈ pre, p.status_code = 200 ∧ p.results ≠ []) →
      ∀ bad : PageResp, bad.status_code ≠ 200 → ∀ post : List PageResp,
        get_container_names (pre ++ bad :: post) = allNames pre) := by
  constructor
  · intro ps
    induction ps with
    | nil => intro _ rest; simp [get_container_names, allNames]
    | cons p ps ih =>
      intro h rest
      obtain ⟨h1, h2⟩ := h p (List.mem_cons_self p ps)
      have hne : p.results.isEmpty = false := by
        cases hr : p.results with
        | nil => exact absurd hr h2
        | cons a l => rfl
      have ih2 := ih (fun q hq => h q (List.mem_cons_of_mem _ hq)) rest
      simp [get_container_names, allNames, h1, hne, ih2]
  · intro pre
    induction pre with
    | nil =>
      intro _ bad hbad post
      simp [get_container_names, allNames, hbad]
    | cons p ps ih =>
      intro h bad hbad post
      obtain ⟨h1, h2⟩ := h p (List.mem_cons_self p ps)
      have hne : p.results.isEmpty = false := by
        cases hr : p.results with
        | nil => exact absurd hr h2
        | cons a l => rfl
      have ih2 := ih (fun q hq => h q (List.mem_cons_of_mem _ hq)) bad hbad post
      simp [get_container_names, allNames, h1, hne, ih2]

/-- Witness for C6 on concrete listings: two good pages then an empty page
give the concatenation, and a 500 on page 2 truncates to page 1's names. -/
theorem C6_witness :
    get_container_names [⟨200, [⟨"a"⟩]⟩, ⟨200, [⟨"b"⟩]⟩, ⟨200, []⟩] = ["a", "b"] ∧
    get_container_names [⟨200, [⟨"a"⟩]⟩, ⟨500, [⟨"x"⟩]⟩, ⟨200, [⟨"b"⟩]⟩] = ["a"] := by
  constructor
  · have h := C6_discovery.1 [⟨200, [⟨"a"⟩]⟩, ⟨200, [⟨"b"⟩]⟩] (by decide) []
    simpa [allNames] using h
  · have h := C6_discovery.2 [⟨200, [⟨"a"⟩]⟩] (by decide) ⟨500, [⟨"x"⟩]⟩ (by decide)
      [⟨200, [⟨"b"⟩]⟩]
    simpa [allNames] using h

/-- Claim C4: database preparation is attempted at most 5 times with a
fixed 5 second delay between consecutive attempts (the trace is exactly
`m + 1 ≤ 5` consecutive attempts separated by single 5 second sleeps); if
some attempt within the budget succeeds, no later attempt runs and the
run proceeds to the container loop; if all 5 attempts fail, the run aborts
with a non-zero exit status with no container event ever emitted. -/
theorem C4_db_retry_policy (env : RunEnv) :
    (∃ m, m + 1 ≤ 5 ∧ (process_containers env).prepEvents = attemptsFrom 0 m) ∧
    (∀ k, k < 5 → env.prepOk k = true →
      (process_containers env).prepSucceeded = true ∧
      (process_containers env).taskEvents =
        (runLoop "ghtrecontainers" env.task (process_containers env).names).1 ∧
      ∀ j, k < j → PrepEvent.attempt j ∉ (process_containers env).prepEvents) ∧
    ((∀ i, i < 5 → env.prepOk i = false) →
      (process_containers env).prepSucceeded = false ∧
      (process_containers env).taskEvents = [] ∧
      exitStatus (process_containers env) ≠ 0) := by
  refine ⟨?_, ?_, ?_⟩
  · obtain ⟨m, hm, htr⟩ := dbPrepGo_shape env.prepOk 5 (by omega) 0
    exact ⟨m, hm, by rw [process_containers_prepEvents]; exact htr⟩
  · intro k hk hok
    have hs : (dbPrep env.prepOk).2 = true :=
      (dbPrepGo_succeeds env.prepOk 5 0).mpr ⟨k, by omega, by omega, hok⟩
    refine ⟨by rw [process_containers_prepSucceeded]; exact hs, ?_, ?_⟩
    · rw [process_containers_names]
      exact (process_containers_loop env hs).1
    · intro j hj hmem
      rw [process_containers_prepEvents] at hmem
      obtain ⟨-, hall⟩ := dbPrepGo_attempt_mem env.prepOk 5 0 j hmem
      have hc := hall k (by omega) (by omega)
      rw [hok] at hc; cases hc
  · intro hall
    obtain ⟨-, hx, ht⟩ := process_containers_fatal env hall
    refine ⟨?_, ht, by rw [hx]; exact one_ne_zero⟩
    rw [process_containers_prepSucceeded]
    exact dbPrep_fails env.prepOk hall

/-- Witness for C4: a database download failing on attempts 0-3 and
succeeding on attempt 4 lets the run proceed with no sixth attempt, and
one failing on all five attempts gives a fatal non-zero exit with no
container events. -/
theorem C4_witness :
    (process_containers lateOkRun).prepSucceeded = true ∧
    PrepEvent.attempt 5 ∉ (process_containers lateOkRun).prepEvents ∧
    (process_containers allFailRun).prepSucceeded = false ∧
    exitStatus (process_containers allFailRun) ≠ 0 :=
  ⟨((C4_db_retry_policy lateOkRun).2.1 4 (by decide) (by decide)).1,
   ((C4_db_retry_policy lateOkRun).2.1 4 (by decide) (by decide)).2.2 5 (by decide),
   ((C4_db_retry_policy allFailRun).2.2 (fun _ _ => rfl)).1,
   ((C4_db_retry_policy allFailRun).2.2 (fun _ _ => rfl)).2.2⟩

/-- Counterexample to claim C1 as stated: with two discovered containers
whose uploads raise, the first task's upload failure escapes the loop —
the exception aborts the run and the second container is never attempted
(it is never even scanned). -/
theorem C1_counterexample :
    (runLoop "ghtrecontainers" (fun _ => uploadFailEnv) ["alpha", "beta"]).2 =
      some Exn.uploadError ∧
    Event.scan (staging_path "beta") ∉
      (runLoop "ghtrecontainers" (fun _ => uploadFailEnv) ["alpha", "beta"]).1 := by
  decide

/-- Claim C1 (amended): a failure reported through the exit status of
pull, scan or convert — which the code never inspects — does not prevent
subsequent tasks: as long as no task's upload raises and no checked `rm`
raises, every discovered container is attempted (each gets scanned) and no
task-level error aborts the loop.  An upload failure, however, raises an
uncaught exception that aborts the run (see the counterexample). -/
theorem C1_failure_isolation_amended (org : String) (names : List String)
    (envs : String → TaskEnv)
    (hu : ∀ n, (envs n).uploadRaises = false)
    (hr : ∀ n, (envs n).rmRaises = false) :
    (runLoop org envs names).2 = none ∧
    ∀ n ∈ names, Event.scan (staging_path n) ∈ (runLoop org envs names).1 :=
  runLoop_benign org envs hu hr names

/-- Witness for the amended C1: both containers fail their pull and scan
(nonzero exits), yet both are attempted and nothing aborts the loop. -/
theorem C1_witness :
    (runLoop "ghtrecontainers" (fun _ => pullFailEnv) ["alpha", "beta"]).2 = none ∧
    Event.scan (staging_path "beta") ∈
      (runLoop "ghtrecontainers" (fun _ => pullFailEnv) ["alpha", "beta"]).1 := by
  have h := C1_failure_isolation_amended "ghtrecontainers" ["alpha", "beta"]
    (fun _ => pullFailEnv) (fun _ => rfl) (fun _ => rfl)
  exact ⟨h.1, h.2 "beta" (by simp)⟩

/-- Counterexample to claim C2 as stated: a scanner execution failure
(nonzero scan exit, empty stdout) is not routed to any error handling —
the task is converted and uploaded all the same, because line 70 looks
only for `"CRITICAL"` in stdout and an errored scan prints no findings. -/
theorem C2_counterexample :
    scanErrEnv.scan.returncode ≠ 0 ∧
    Event.convert (sif_file "alpha") (staging_path "alpha") ∈
      (runTask "ghtrecontainers" "alpha" scanErrEnv).1 ∧
    Event.upload (destination_key "alpha") (sif_file "alpha") ∈
      (runTask "ghtrecontainers" "alpha" scanErrEnv).1 ∧
    (runTask "ghtrecontainers" "alpha" scanErrEnv).2 = TaskResult.uploaded := by
  decide

/-- Claim C2 (amended): conversion happens for a task exactly when its
scan stdout lacks the `"CRITICAL"` marker; the scanner's exit code and
stderr are never consulted, so a scan execution failure whose stdout lacks
the marker is treated as clean and proceeds to conversion and upload. -/
theorem C2_scan_gate_amended (org name : String) (env : TaskEnv) :
    (Event.convert (sif_file name) (staging_path name) ∈ (runTask org name env).1 ↔
      hasCritical env.scan.stdout = false) ∧
    ∀ rc : Int, ∀ err : String,
      runTask org name ⟨env.pull, ⟨rc, env.scan.stdout, err⟩, env.convert,
        env.uploadRaises, env.rmRaises⟩ = runTask org name env := by
  constructor
  · cases h : hasCritical env.scan.stdout <;>
      cases hu : env.uploadRaises <;>
        cases hr : env.rmRaises <;>
          simp [runTask, h, hu, hr]
  · intro rc err; rfl

/-- Witness for the amended C2: the errored scan has no marker in its
stdout, so conversion is reached. -/
theorem C2_witness :
    Event.convert (sif_file "alpha") (staging_path "alpha") ∈
      (runTask "ghtrecontainers" "alpha" scanErrEnv).1 :=
  (C2_scan_gate_amended "ghtrecontainers" "alpha" scanErrEnv).1.mpr (by decide)

/-- Counterexample to claim C3 as stated: when the upload raises, the task
terminates in a failed state with no `rm` call at all — both the staging
tarball and the converted artifact outlive the task, because the cleanup
of line 90 sits after the upload and there is no try/finally. -/
theorem C3_counterexample :
    (runTask "ghtrecontainers" "alpha" uploadFailEnv).2 =
      TaskResult.raised Exn.uploadError ∧
    (runTask "ghtrecontainers" "alpha" uploadFailEnv).1.filter isRmEvent = [] := by
  decide

/-- Claim C3 (amended): on the skip path the staging file is removed, and
on a proceed path whose upload does not raise both the artifact and the
staging file are removed; but cleanup is not unconditional — a raising
upload skips it (see the counterexample). -/
theorem C3_cleanup_amended (org name : String) (env : TaskEnv)
    (hr : env.rmRaises = false) :
    (hasCritical env.scan.stdout = true →
      Event.rm [staging_path name] ∈ (runTask org name env).1) ∧
    (hasCritical env.scan.stdout = false → env.uploadRaises = false →
      Event.rm [sif_file name, staging_path name] ∈ (runTask org name env).1) := by
  constructor
  · intro h; simp [runTask, h, hr]
  · intro h hu; simp [runTask, h, hr, hu]

/-- Witness for the amended C3 at a critical scan and at a clean scan. -/
theorem C3_witness :
    Event.rm [staging_path "alpha"] ∈
      (runTask "ghtrecontainers" "alpha" criticalEnv).1 ∧
    Event.rm [sif_file "beta", staging_path "beta"] ∈
      (runTask "ghtrecontainers" "beta" benignEnv).1 :=
  ⟨(C3_cleanup_amended "ghtrecontainers" "alpha" criticalEnv rfl).1 (by decide),
   (C3_cleanup_amended "ghtrecontainers" "beta" benignEnv rfl).2 (by decide) rfl⟩

/-- Claim C5: when the scan stdout contains the `"CRITICAL"` marker, the
task performs no conversion call and no upload call and removes its
staging file (the `rm` succeeding); when the marker is absent the outcome
is treated as clean and the task proceeds to conversion. -/
theorem C5_critical_marker_rule (org name : String) (env : TaskEnv) :
    (hasCritical env.scan.stdout = true →
      (runTask org name env).1.filter isConvertEvent = [] ∧
      (runTask org name env).1.filter isUploadEvent = [] ∧
      (env.rmRaises = false →
        Event.rm [staging_path name] ∈ (runTask org name env).1)) ∧
    (hasCritical env.scan.stdout = false →
      Event.convert (sif_file name) (staging_path name) ∈ (runTask org name env).1) := by
  constructor
  · intro h
    cases hr : env.rmRaises
    · refine ⟨?_, ?_, fun _ => ?_⟩ <;>
        simp [runTask, h, hr, isConvertEvent, isUploadEvent]
    · refine ⟨?_, ?_, fun hc => ?_⟩
      · simp [runTask, h, hr, isConvertEvent]
      · simp [runTask, h, hr, isUploadEvent]
      · cases hc
  · intro h
    cases hu : env.uploadRaises <;>
      cases hr : env.rmRaises <;>
        simp [runTask, h, hu, hr]

/-- Witness for C5: a scan stdout carrying the marker leads to no upload
and a staging cleanup; an empty stdout leads to conversion. -/
theorem C5_witness :
    (runTask "ghtrecontainers" "crit" criticalEnv).1.filter isUploadEvent = [] ∧
    Event.rm [staging_path "crit"] ∈ (runTask "ghtrecontainers" "crit" criticalEnv).1 ∧
    Event.convert (sif_file "clean") (staging_path "clean") ∈
      (runTask "ghtrecontainers" "clean" benignEnv).1 :=
  ⟨((C5_critical_marker_rule "ghtrecontainers" "crit" criticalEnv).1 (by decide)).2.1,
   ((C5_critical_marker_rule "ghtrecontainers" "crit" criticalEnv).1 (by decide)).2.2 rfl,
   (C5_critical_marker_rule "ghtrecontainers" "clean" benignEnv).2 (by decide)⟩

/-- Counterexample to claim C7 as stated: database preparation succeeds
and discovery completes, yet the single task's raising upload escapes and
the process exits with status 1, not 0. -/
theorem C7_counterexample :
    (process_containers uploadFailRun).prepSucceeded = true ∧
    (process_containers uploadFailRun).names = ["alpha"] ∧
    exitStatus (process_containers uploadFailRun) = 1 := by
  decide

/-- Claim C7 (amended): when some database-download attempt succeeds and
additionally no task's upload or checked `rm` raises, the process exits
with status 0 after attempting every discovered task, whatever the exit
codes of pull, scan and convert; and the exit status is non-zero whenever
database preparation never succeeds.  A raising upload also yields a
non-zero exit (see the counterexample), so 0 is not guaranteed by
successful preparation alone. -/
theorem C7_exit_status_amended :
    (∀ env : RunEnv, (∃ i, i < 5 ∧ env.prepOk i = true) →
      (∀ n, (env.task n).uploadRaises = false) →
      (∀ n, (env.task n).rmRaises = false) →
      exitStatus (process_containers env) = 0 ∧
      ∀ n ∈ (process_containers env).names,
        Event.scan (staging_path n) ∈ (process_containers env).taskEvents) ∧
    (∀ env : RunEnv, (∀ i, i < 5 → env.prepOk i = false) →
      exitStatus (process_containers env) ≠ 0) := by
  constructor
  · rintro env ⟨i, hi, hoki⟩ hu hr
    have hs : (dbPrep env.prepOk).2 = true :=
      (dbPrepGo_succeeds env.prepOk 5 0).mpr ⟨i, by omega, by omega, hoki⟩
    obtain ⟨ht, he⟩ := process_containers_loop env hs
    obtain ⟨hnone, hmem⟩ := runLoop_benign "ghtrecontainers" env.task hu hr
      (get_container_names env.pages)
    constructor
    · have hexn : (process_containers env).exn = none := he.trans hnone
      simp [exitStatus, hexn]
    · intro n hn
      rw [process_containers_names] at hn
      rw [ht]
      exact hmem n hn
  · intro env hall
    obtain ⟨-, hx, -⟩ := process_containers_fatal env hall
    rw [hx]
    exact one_ne_zero

/-- Witness for the amended C7: a run over one container with failing pull
and scan still exits 0 with the container attempted, while a run whose
database download always fails exits non-zero. -/
theorem C7_witness :
    exitStatus (process_containers ⟨alphaPages, fun _ => true, fun _ => pullFailEnv⟩) = 0 ∧
    exitStatus (process_containers allFailRun) ≠ 0 :=
  ⟨(C7_exit_status_amended.1 ⟨alphaPages, fun _ => true, fun _ => pullFailEnv⟩
      ⟨0, by omega, rfl⟩ (fun _ => rfl) (fun _ => rfl)).1,
   C7_exit_status_amended.2 allFailRun (fun _ _ => rfl)⟩

/-- Concatenating two strings concatenates their character data. -/
theorem string_data_append (s t : String) : (s ++ t).data = s.data ++ t.data := by
  cases s; cases t; rfl

/-- A string squeezed between two fixed strings can be recovered:
`p ++ n ++ q` determines `n`. -/
theorem string_append_inj_mid (p q n1 n2 : String)
    (h : p ++ n1 ++ q = p ++ n2 ++ q) : n1 = n2 := by
  have hd := congrArg String.data h
  simp only [string_data_append] at hd
  have h1 := List.append_cancel_right hd
  have h2 := List.append_cancel_left h1
  cases n1; cases n2
  exact congrArg String.mk h2

/-- Counterexample to claim C8 as stated: nothing deduplicates discovery,
so a listing answering the same repository name on two pages yields two
distinct tasks (positions 0 and 1 of the run's task list) whose staging
paths coincide and whose artifact paths coincide. -/
theorem C8_counterexample :
    get_container_names dupPages = ["alpha", "alpha"] ∧
    staging_path ((get_container_names dupPages).getD 0 "x") =
      staging_path ((get_container_names dupPages).getD 1 "y") ∧
    sif_file ((get_container_names dupPages).getD 0 "x") =
      sif_file ((get_container_names dupPages).getD 1 "y") := by
  decide

/-- Claim C8 (amended): the staging path and the artifact path are each
injective functions of the container name, so tasks with distinct names
never collide on either local path; only duplicate names in the listing —
which discovery does not deduplicate — can collide (see the
counterexample). -/
theorem C8_path_uniqueness_amended (n1 n2 : String) (h : n1 ≠ n2) :
    staging_path n1 ≠ staging_path n2 ∧ sif_file n1 ≠ sif_file n2 := by
  constructor
  · intro he; exact h (string_append_inj_mid "/tmp/" ".tar" n1 n2 he)
  · intro he; exact h (string_append_inj_mid "/tmp/" ".sif" n1 n2 he)

/-- Witness for the amended C8 at two distinct names. -/
theorem C8_witness :
    staging_path "alpha" ≠ staging_path "beta" ∧
    sif_file "alpha" ≠ sif_file "beta" :=
  C8_path_uniqueness_amended "alpha" "beta" (by decide)

/-- Claim C9: every upload the loop body performs uses the destination key
`containers/<name>.sif` and the local artifact `/tmp/<name>.sif`, both
computed from the container name alone; and every task that reaches
conversion does perform such an upload call. -/
theorem C9_destination_key (org name : String) (env : TaskEnv) :
    (∀ k f, Event.upload k f ∈ (runTask org name env).1 →
      k = "containers/" ++ name ++ ".sif" ∧ f = sif_file name) ∧
    (Event.convert (sif_file name) (staging_path name) ∈ (runTask org name env).1 →
      Event.upload ("containers/" ++ name ++ ".sif") (sif_file name) ∈
        (runTask org name env).1) := by
  constructor
  · intro k f hm
    cases h : hasCritical env.scan.stdout <;>
      cases hu : env.uploadRaises <;>
        cases hr : env.rmRaises <;>
          simp [runTask, destination_key, h, hu, hr] at hm <;>
            exact ⟨hm.1, hm.2⟩
  · intro hc
    cases h : hasCritical env.scan.stdout <;>
      cases hu : env.uploadRaises <;>
        cases hr : env.rmRaises <;>
          simp_all [runTask, destination_key]

/-- Witness for C9: a task that reached conversion uploaded under exactly
`containers/alpha.sif`. -/
theorem C9_witness :
    Event.upload ("containers/" ++ "alpha" ++ ".sif") (sif_file "alpha") ∈
      (runTask "ghtrecontainers" "alpha" benignEnv).1 :=
  (C9_destination_key "ghtrecontainers" "alpha" benignEnv).2 (by decide)

/-- Claim C10: the module never binds the name `sys`, so the abort
statement `sys.exit(1)` of line 49 raises `NameError` instead of a normal
`SystemExit`; on the all-attempts-fail path this uncaught exception still
terminates the process with a non-zero status. -/
theorem C10_sys_unbound :
    "sys" ∉ moduleBindings ∧
    abortStatement = Exn.nameError ∧
    ∀ env : RunEnv, (∀ i, i < 5 → env.prepOk i = false) →
      (process_containers env).exn = some Exn.nameError ∧
      exitStatus (process_containers env) ≠ 0 := by
  refine ⟨by decide, abortStatement_eq, fun env hall => ?_⟩
  obtain ⟨he, hx, -⟩ := process_containers_fatal env hall
  exact ⟨he, by rw [hx]; exact one_ne_zero⟩

/-- Witness for C10 at a concrete run whose download never succeeds. -/
theorem C10_witness :
    (process_containers allFailRun).exn = some Exn.nameError ∧
    exitStatus (process_containers allFailRun) ≠ 0 :=
  C10_sys_unbound.2.2 allFailRun (fun _ _ => rfl)

end Imagenie
